import Mathlib

/-!
Shallow embedding of the driver-order hooks of this repository:

* part_000 (useDriverOrders): the assigned-orders query, the available-orders
  query (server-side anti-join over order_assignments), and the
  updateOrderStatus mutation with its onSuccess / onError handlers.
* src/hooks/useAvailableOrders.tsx: the available-orders query that selects
  status pending and post-filters client-side by re-querying
  order_assignments per order, plus the real-time subscription handlers.
* part_001 (DeliveryRequestCard): the calculateDistance haversine formula.

The backend database is modelled as a record of the two tables the claims
touch (orders, order_assignments); declarative filters of the remote query
language are modelled as list filters over that state.  Each remote call a
function issues is recorded in a request trace.  Read paths are modelled
error-free; the two writes of updateOrderStatus take an explicit optional
error response each, a failing write leaving the state unchanged.  The
order-by clauses are modelled with insertionSort, which only permutes rows.
JavaScript numbers in the distance formula are modelled as real numbers;
Math.round on reals coincides with round (both are floor of x + 1/2).
-/

/-- Order status union type of part_000 (type OrderStatus). -/
inductive OrderStatus where
  | pending
  | confirmed
  | preparing
  | ready
  | delivered
  | cancelled
deriving DecidableEq, Repr

/-- Row of the orders table, restricted to the columns the embedded code
reads or writes. -/
structure OrderRow where
  id : String
  status : OrderStatus
  created_at : Nat
  updated_at : String
  notes : Option String
  delivery_address_id : Option String
deriving DecidableEq, Repr

/-- Row of the order_assignments table, restricted to the columns the
embedded code reads or writes. -/
structure AssignmentRow where
  id : String
  order_id : String
  driver_id : String
  picked_up_at : Option String
  delivered_at : Option String
deriving DecidableEq, Repr

/-- The backend database state: the two tables the claims are about. -/
structure DBState where
  orders : List OrderRow
  order_assignments : List AssignmentRow
deriving DecidableEq, Repr

/-- The assignmentUpdate argument of updateOrderStatus: an object holding
only the keys that are present. -/
structure AssignmentUpdate where
  picked_up_at : Option String
  delivered_at : Option String
deriving DecidableEq, Repr

/-- The payload updateOrderStatus sends to the orders table:
exactly the keys status and updated_at. -/
structure OrdersUpdatePayload where
  status : OrderStatus
  updated_at : String
deriving DecidableEq, Repr

/-- One remote call, tagged with its table and its declarative filter. -/
inductive Req where
  | updateOrders (payload : OrdersUpdatePayload) (eq_id : String)
  | updateAssignments (payload : AssignmentUpdate) (eq_order_id : String)
  | selectPendingOrders
  | selectAssignmentsByOrder (eq_order_id : String)
  | selectAllAssignments
  | selectReadyOrders (not_id_in : Option (List String))
  | selectAssignedOrders (eq_driver_id : String)
deriving DecidableEq, Repr

/-- An observable UI effect of a mutation callback or subscription
handler. -/
inductive Effect where
  | invalidate (queryKey : String)
  | toastSuccess (msg : String)
  | toastError (msg : String)
deriving DecidableEq, Repr

/-- The argument record of the updateOrderStatus mutation. -/
structure UpdateOrderStatusInput where
  orderId : String
  status : OrderStatus
  assignmentUpdate : Option AssignmentUpdate
deriving DecidableEq, Repr

/-- Effect of the orders write of updateOrderStatus on the database:
update with an object of keys status and updated_at, filtered by
id = orderId. -/
def applyOrdersUpdate (db : DBState) (orderId : String)
    (p : OrdersUpdatePayload) : DBState :=
  { db with
    orders := db.orders.map fun o =>
      if o.id = orderId then
        { o with status := p.status, updated_at := p.updated_at }
      else o }

/-- Applying the assignmentUpdate object to one assignment row: only the
keys present in the object are written. -/
def applyAssignmentFields (a : AssignmentRow) (u : AssignmentUpdate) :
    AssignmentRow :=
  { a with
    picked_up_at :=
      match u.picked_up_at with
      | some v => some v
      | none => a.picked_up_at,
    delivered_at :=
      match u.delivered_at with
      | some v => some v
      | none => a.delivered_at }

/-- Effect of the order_assignments write of updateOrderStatus on the
database: update with the assignmentUpdate object, filtered by
order_id = orderId. -/
def applyAssignmentUpdate (db : DBState) (orderId : String)
    (u : AssignmentUpdate) : DBState :=
  { db with
    order_assignments := db.order_assignments.map fun a =>
      if a.order_id = orderId then applyAssignmentFields a u else a }

/-- mutationFn of updateOrderStatus (part_000, lines 137-177).  The two
remote writes take an explicit optional error response (ordersErr for the
orders update, assignErr for the order_assignments update); a failing
write leaves the database unchanged.  Returns the trace of issued
requests, the resulting database, and the thrown error if any.  The
orders write is issued first; on its error the function throws at once,
so the assignment write is neither issued nor applied.  The assignment
write is issued only when assignmentUpdate is provided. -/
def runUpdateOrderStatus (inp : UpdateOrderStatusInput) (now : String)
    (ordersErr assignErr : Option String) (db : DBState) :
    List Req × DBState × Option String :=
  match ordersErr with
  | some e => ([Req.updateOrders ⟨inp.status, now⟩ inp.orderId], db, some e)
  | none =>
    match inp.assignmentUpdate with
    | none =>
      ([Req.updateOrders ⟨inp.status, now⟩ inp.orderId],
       applyOrdersUpdate db inp.orderId ⟨inp.status, now⟩, none)
    | some u =>
      match assignErr with
      | some e =>
        ([Req.updateOrders ⟨inp.status, now⟩ inp.orderId,
          Req.updateAssignments u inp.orderId],
         applyOrdersUpdate db inp.orderId ⟨inp.status, now⟩, some e)
      | none =>
        ([Req.updateOrders ⟨inp.status, now⟩ inp.orderId,
          Req.updateAssignments u inp.orderId],
         applyAssignmentUpdate
           (applyOrdersUpdate db inp.orderId ⟨inp.status, now⟩)
           inp.orderId u, none)

/-- onSuccess / onError callbacks of the updateOrderStatus mutation:
on error a toast with the error message, on success two query
invalidations and a success toast. -/
def updateOrderStatusEffects (err : Option String) : List Effect :=
  match err with
  | some e =>
    [Effect.toastError (String.append "Error al actualizar pedido: " e)]
  | none =>
    [Effect.invalidate "driver-orders",
     Effect.invalidate "available-orders",
     Effect.toastSuccess "Estado del pedido actualizado"]

/-- The whole updateOrderStatus mutation: mutationFn followed by the
matching callback.  Components: request trace, resulting database,
thrown error, UI effects. -/
def updateOrderStatusMutation (inp : UpdateOrderStatusInput) (now : String)
    (ordersErr assignErr : Option String) (db : DBState) :
    List Req × DBState × Option String × List Effect :=
  let r := runUpdateOrderStatus inp now ordersErr assignErr db
  (r.1, r.2.1, r.2.2, updateOrderStatusEffects r.2.2)

/-- Substring test over character lists: JavaScript
String.prototype.includes. -/
def charsInclude : List Char → List Char → Bool
  | [], pat => pat.isEmpty
  | c :: rest, pat => pat.isPrefixOf (c :: rest) || charsInclude rest pat

/-- JavaScript s.includes(pat) for strings. -/
def strIncludes (s pat : String) : Bool :=
  charsInclude s.toList pat.toList

/-- The test order.notes?.includes(Mesa:) of the INSERT handler of
useAvailableOrders, on an optional notes column: absent notes contain
nothing. -/
def notesContainMesa (notes : Option String) : Bool :=
  match notes with
  | none => false
  | some s => strIncludes s "Mesa:"

/-- INSERT handler of the useAvailableOrders real-time subscription
(useAvailableOrders.tsx, lines 83-99): invalidate the available-orders
query exactly when the new order has status pending and its notes do not
contain the marker Mesa:. -/
def onOrderInsert (o : OrderRow) : List Effect :=
  if o.status = OrderStatus.pending ∧ notesContainMesa o.notes = false then
    [Effect.invalidate "available-orders"]
  else []

/-- UPDATE handler of the useAvailableOrders real-time subscription
(useAvailableOrders.tsx, lines 100-111): always invalidate the
available-orders query. -/
def onOrderUpdate (_o : OrderRow) : List Effect :=
  [Effect.invalidate "available-orders"]

/-- Whether the subscription effect of useAvailableOrders creates a
channel: it returns before subscribing when driverId is absent
(useAvailableOrders.tsx, line 77). -/
def setsUpSubscription (driverId : Option String) : Bool :=
  match driverId with
  | none => false
  | some _ => true

/-- queryFn of useAvailableOrders (useAvailableOrders.tsx, lines 11-68).
Returns the request trace and the resulting list filteredOrders.  With no
driverId it returns the empty list at once.  Otherwise the server query
selects orders with status pending and null delivery_address_id; the
filter not cs on the order_assignments relation is modelled per its
inline comment (no existing assignments) as excluding orders that have an
assignment row; rows come back ordered by created_at ascending.  The
client then re-queries order_assignments for each returned order and
keeps the orders with no assignment row. -/
def useAvailableOrdersQueryFn (driverId : Option String) (db : DBState) :
    List Req × List OrderRow :=
  match driverId with
  | none => ([], [])
  | some _ =>
    let data :=
      List.insertionSort (fun a b : OrderRow => a.created_at ≤ b.created_at)
        (db.orders.filter fun o =>
          decide (o.status = OrderStatus.pending) &&
          o.delivery_address_id.isNone &&
          (db.order_assignments.filter fun a =>
            decide (a.order_id = o.id)).isEmpty)
    let reqs :=
      Req.selectPendingOrders ::
        data.map fun o => Req.selectAssignmentsByOrder o.id
    let filteredOrders :=
      data.filter fun o =>
        (db.order_assignments.filter fun a =>
          decide (a.order_id = o.id)).isEmpty
    (reqs, filteredOrders)

/-- queryFn of the available-orders query of useDriverOrders (part_000,
lines 72-131).  First fetches every order_id of order_assignments, then
selects orders with status ready ordered by created_at descending,
adding the anti-join filter not id in excludeOrderIds only when that
list is nonempty. -/
def driverAvailableOrdersQueryFn (db : DBState) :
    List Req × List OrderRow :=
  let excludeOrderIds := db.order_assignments.map fun a => a.order_id
  let base :=
    List.insertionSort (fun a b : OrderRow => b.created_at ≤ a.created_at)
      (db.orders.filter fun o => decide (o.status = OrderStatus.ready))
  let data :=
    if excludeOrderIds.isEmpty then base
    else base.filter fun o => !decide (o.id ∈ excludeOrderIds)
  ([Req.selectAllAssignments,
    Req.selectReadyOrders
      (if excludeOrderIds.isEmpty then none else some excludeOrderIds)],
   data)

/-- queryFn of the assigned-orders query of useDriverOrders (part_000,
lines 15-63).  With no driverId it returns the empty list at once.
Otherwise it selects orders inner-joined with an assignment of this
driver, with status among confirmed, preparing, ready, ordered by
created_at descending. -/
def driverAssignedOrdersQueryFn (driverId : Option String) (db : DBState) :
    List Req × List OrderRow :=
  match driverId with
  | none => ([], [])
  | some d =>
    let data :=
      List.insertionSort (fun a b : OrderRow => b.created_at ≤ a.created_at)
        (db.orders.filter fun o =>
          (db.order_assignments.any fun a =>
            decide (a.order_id = o.id) && decide (a.driver_id = d)) &&
          [OrderStatus.confirmed, OrderStatus.preparing,
            OrderStatus.ready].contains o.status)
    ([Req.selectAssignedOrders d], data)

/-- A latitude/longitude pair (driverLocation and delivery_addresses of
part_001). -/
structure Coord where
  latitude : ℝ
  longitude : ℝ

/-- JavaScript Math.atan2(y, x), on real numbers. -/
noncomputable def atan2 (y x : ℝ) : ℝ :=
  if 0 < x then Real.arctan (y / x)
  else if x < 0 ∧ 0 ≤ y then Real.arctan (y / x) + Real.pi
  else if x < 0 ∧ y < 0 then Real.arctan (y / x) - Real.pi
  else if x = 0 ∧ 0 < y then Real.pi / 2
  else if x = 0 ∧ y < 0 then -(Real.pi / 2)
  else 0

/-- calculateDistance of DeliveryRequestCard (part_001, lines 68-80):
haversine distance in kilometers from the driver location to the
delivery address, rounded to one decimal via Math.round(dist * 10) / 10. -/
noncomputable def calculateDistance (driverLocation delivery : Coord) : ℝ :=
  let R : ℝ := 6371
  let dLat := (delivery.latitude - driverLocation.latitude) * Real.pi / 180
  let dLon := (delivery.longitude - driverLocation.longitude) * Real.pi / 180
  let a :=
    Real.sin (dLat / 2) * Real.sin (dLat / 2) +
      Real.cos (driverLocation.latitude * Real.pi / 180) *
        Real.cos (delivery.latitude * Real.pi / 180) *
        Real.sin (dLon / 2) * Real.sin (dLon / 2)
  let c := 2 * atan2 (Real.sqrt a) (Real.sqrt (1 - a))
  let dist := R * c
  (round (dist * 10) : ℝ) / 10

/-- Modelled from the spec: the great-circle haversine distance with
Earth radius R = 6371 km, d = R * 2 * atan2(sqrt a, sqrt (1 - a)) with
a = sin^2(dLat/2) + cos(lat1) * cos(lat2) * sin^2(dLon/2), rounded to one
decimal kilometer as round(d * 10) / 10. -/
noncomputable def haversineSpecDistance (p q : Coord) : ℝ :=
  let R : ℝ := 6371
  let dLat := (q.latitude - p.latitude) * Real.pi / 180
  let dLon := (q.longitude - p.longitude) * Real.pi / 180
  let a :=
    Real.sin (dLat / 2) ^ 2 +
      Real.cos (p.latitude * Real.pi / 180) *
        Real.cos (q.latitude * Real.pi / 180) * Real.sin (dLon / 2) ^ 2
  let d := R * (2 * atan2 (Real.sqrt a) (Real.sqrt (1 - a)))
  (round (d * 10) : ℝ) / 10

/-- Congruence of the rounded haversine expression in its a-term. -/
theorem distRound_congr (a b : ℝ) (h : a = b) :
    (round (6371 * (2 * atan2 (Real.sqrt a) (Real.sqrt (1 - a))) * 10) : ℝ) / 10
      = (round (6371 * (2 * atan2 (Real.sqrt b) (Real.sqrt (1 - b))) * 10) : ℝ) / 10 := by
  rw [h]

/-- Swapping the two endpoints leaves the haversine a-term unchanged. -/
theorem hav_a_symm (lat1 lat2 lon1 lon2 : ℝ) :
    Real.sin ((lat2 - lat1) * Real.pi / 180 / 2) *
        Real.sin ((lat2 - lat1) * Real.pi / 180 / 2) +
      Real.cos (lat1 * Real.pi / 180) * Real.cos (lat2 * Real.pi / 180) *
        Real.sin ((lon2 - lon1) * Real.pi / 180 / 2) *
        Real.sin ((lon2 - lon1) * Real.pi / 180 / 2)
      = Real.sin ((lat1 - lat2) * Real.pi / 180 / 2) *
          Real.sin ((lat1 - lat2) * Real.pi / 180 / 2) +
        Real.cos (lat2 * Real.pi / 180) * Real.cos (lat1 * Real.pi / 180) *
          Real.sin ((lon1 - lon2) * Real.pi / 180 / 2) *
          Real.sin ((lon1 - lon2) * Real.pi / 180 / 2) := by
  have h1 : (lat1 - lat2) * Real.pi / 180 / 2
      = -((lat2 - lat1) * Real.pi / 180 / 2) := by ring
  have h2 : (lon1 - lon2) * Real.pi / 180 / 2
      = -((lon2 - lon1) * Real.pi / 180 / 2) := by ring
  rw [h1, h2, Real.sin_neg, Real.sin_neg]
  ring

/-- C4: for every driver location and delivery coordinate pair, the
distance computed by the delivery request card equals the great-circle
haversine distance with Earth radius 6371 km, rounded to one decimal
kilometer. -/
theorem calculateDistance_eq_haversineSpec (p q : Coord) :
    calculateDistance p q = haversineSpecDistance p q := by
  simp only [calculateDistance, haversineSpecDistance]
  exact distRound_congr _ _ (by ring)

/-- C5: the distance calculation applied to two identical endpoints
returns 0. -/
theorem calculateDistance_self (p : Coord) : calculateDistance p p = 0 := by
  simp [calculateDistance, atan2]

/-- C6: the distance calculation is symmetric in its two endpoints. -/
theorem calculateDistance_symm (p q : Coord) :
    calculateDistance p q = calculateDistance q p := by
  simp only [calculateDistance]
  exact distRound_congr _ _
    (hav_a_symm p.latitude q.latitude p.longitude q.longitude)

/-- C1: with both remote calls succeeding, updateOrderStatus sends to the
orders table exactly the payload of status and updated_at filtered by
id = orderId, and sends the given assignmentUpdate payload to the
order_assignments table filtered by order_id = orderId exactly when
assignmentUpdate is provided. -/
theorem updateOrderStatus_payloads (inp : UpdateOrderStatusInput)
    (now : String) (db : DBState) :
    (runUpdateOrderStatus inp now none none db).1 =
      Req.updateOrders ⟨inp.status, now⟩ inp.orderId ::
        (match inp.assignmentUpdate with
         | some u => [Req.updateAssignments u inp.orderId]
         | none => []) := by
  obtain ⟨oid, st, au⟩ := inp
  cases au <;> rfl

/-- C9: with no driverId, the query functions of useAvailableOrders and
of the assigned-orders query of useDriverOrders return the empty list
with an empty request trace, and useAvailableOrders sets up no real-time
subscription. -/
theorem no_driver_no_requests (db : DBState) :
    useAvailableOrdersQueryFn none db = ([], []) ∧
    driverAssignedOrdersQueryFn none db = ([], []) ∧
    setsUpSubscription none = false :=
  ⟨rfl, rfl, rfl⟩

/-- C7: updateOrderStatus throws exactly when one of the remote calls it
issues returns an error; on error the only effect is an error toast with
the error message, and on success the effects are invalidation of the
driver-orders and available-orders queries and a success toast. -/
theorem updateOrderStatus_error_and_effects (inp : UpdateOrderStatusInput)
    (now e : String) (ordersErr assignErr : Option String) (db : DBState) :
    ((updateOrderStatusMutation inp now ordersErr assignErr db).2.2.1.isSome
        = (ordersErr.isSome ||
            (inp.assignmentUpdate.isSome && assignErr.isSome)))
    ∧ (updateOrderStatusMutation inp now (some e) assignErr db).2.2.2
        = [Effect.toastError (String.append "Error al actualizar pedido: " e)]
    ∧ (updateOrderStatusMutation inp now none (some e) db).2.2.2
        = (if inp.assignmentUpdate.isSome then
             [Effect.toastError
               (String.append "Error al actualizar pedido: " e)]
           else
             [Effect.invalidate "driver-orders",
              Effect.invalidate "available-orders",
              Effect.toastSuccess "Estado del pedido actualizado"])
    ∧ (updateOrderStatusMutation inp now none none db).2.2.2
        = [Effect.invalidate "driver-orders",
           Effect.invalidate "available-orders",
           Effect.toastSuccess "Estado del pedido actualizado"] := by
  obtain ⟨oid, st, au⟩ := inp
  refine ⟨?_, ?_, ?_, ?_⟩ <;>
    cases au <;> cases ordersErr <;> cases assignErr <;> rfl

/-- C8: the INSERT handler of the useAvailableOrders subscription
invalidates the available-orders query exactly when the inserted order
has status pending and its notes do not contain Mesa:, and the UPDATE
handler invalidates it unconditionally. -/
theorem subscription_handlers (o : OrderRow) :
    (onOrderInsert o = [Effect.invalidate "available-orders"] ↔
      o.status = OrderStatus.pending ∧ notesContainMesa o.notes = false)
    ∧ onOrderUpdate o = [Effect.invalidate "available-orders"] := by
  refine ⟨?_, rfl⟩
  unfold onOrderInsert
  split
  next h => simp [h]
  next h => simp [h]

/-- C10: the orders write of updateOrderStatus precedes the assignment
write; when the orders write fails the mutation throws with no assignment
request issued and the database, order_assignments included, untouched;
when the assignment write fails the already-applied status write is kept
(not rolled back) while order_assignments stays unchanged. -/
theorem updateOrderStatus_order_and_no_rollback (oid : String)
    (st : OrderStatus) (u : AssignmentUpdate) (now e : String)
    (db : DBState) (ordersErr assignErr : Option String) :
    runUpdateOrderStatus ⟨oid, st, some u⟩ now (some e) assignErr db
        = ([Req.updateOrders ⟨st, now⟩ oid], db, some e)
    ∧ runUpdateOrderStatus ⟨oid, st, none⟩ now (some e) assignErr db
        = ([Req.updateOrders ⟨st, now⟩ oid], db, some e)
    ∧ (runUpdateOrderStatus ⟨oid, st, some u⟩ now ordersErr assignErr db).1.head?
        = some (Req.updateOrders ⟨st, now⟩ oid)
    ∧ runUpdateOrderStatus ⟨oid, st, some u⟩ now none (some e) db
        = ([Req.updateOrders ⟨st, now⟩ oid, Req.updateAssignments u oid],
           applyOrdersUpdate db oid ⟨st, now⟩, some e)
    ∧ ((applyOrdersUpdate db oid ⟨st, now⟩).orders.filter fun o =>
          decide (o.id = oid)).all (fun o => decide (o.status = st)) = true
    ∧ (applyOrdersUpdate db oid ⟨st, now⟩).order_assignments
        = db.order_assignments := by
  refine ⟨rfl, rfl, ?_, rfl, ?_, rfl⟩
  · cases ordersErr <;> cases assignErr <;> rfl
  · simp only [applyOrdersUpdate, List.all_eq_true]
    intro o' ho'
    simp only [List.mem_filter, List.mem_map, decide_eq_true_eq] at ho'
    obtain ⟨⟨o0, _, rfl⟩, hid⟩ := ho'
    by_cases h0 : o0.id = oid
    · simp [h0]
    · simp [h0] at hid

/-- C2: the two available-orders computations are inconsistent: there is
a backend database state (one unassigned order with status ready) on
which the available-orders query of useDriverOrders returns an order
that the useAvailableOrders query does not return. -/
theorem available_queries_differ :
    ∃ (db : DBState) (d : String) (o : OrderRow),
      o ∈ (driverAvailableOrdersQueryFn db).2 ∧
      o ∉ (useAvailableOrdersQueryFn (some d) db).2 := by
  refine ⟨⟨[⟨"o1", OrderStatus.ready, 0, "", none, none⟩], []⟩, "d",
    ⟨"o1", OrderStatus.ready, 0, "", none, none⟩, ?_, ?_⟩ <;> decide

/-- C3: every order returned by either available-orders query has no row
in the order_assignments table referencing its id, for every backend
database state. -/
theorem available_orders_unassigned (db : DBState) (d : String)
    (o : OrderRow)
    (h : o ∈ (useAvailableOrdersQueryFn (some d) db).2 ∨
         o ∈ (driverAvailableOrdersQueryFn db).2) :
    db.order_assignments.all (fun a => decide (a.order_id ≠ o.id)) = true := by
  rcases h with h | h
  · simp only [useAvailableOrdersQueryFn, List.mem_filter] at h
    obtain ⟨-, hpred⟩ := h
    simp only [List.isEmpty_iff, List.filter_eq_nil_iff, decide_eq_true_eq] at hpred
    simp only [List.all_eq_true, decide_eq_true_eq]
    exact fun a ha => hpred a ha
  · simp only [driverAvailableOrdersQueryFn] at h
    by_cases hemp : (db.order_assignments.map fun a => a.order_id).isEmpty
    · rw [List.isEmpty_iff, List.map_eq_nil_iff] at hemp
      simp [hemp]
    · rw [if_neg hemp, List.mem_filter] at h
      obtain ⟨-, ho⟩ := h
      simp only [Bool.not_eq_true', decide_eq_false_iff_not] at ho
      simp only [List.all_eq_true, decide_eq_true_eq]
      intro a ha heq
      exact ho (List.mem_map.mpr ⟨a, ha, heq⟩)

/-- Witness for C3: a state with one ready order and one assignment row
for a different order; the ready order is returned by the
useDriverOrders available-orders query and no assignment row references
it. -/
theorem available_orders_unassigned_witness :
    (DBState.mk [⟨"o1", OrderStatus.ready, 0, "", none, none⟩]
        [⟨"a1", "o9", "d2", none, none⟩]).order_assignments.all
      (fun a =>
        decide (a.order_id ≠
          (OrderRow.mk "o1" OrderStatus.ready 0 "" none none).id)) = true :=
  available_orders_unassigned _ "d" _ (Or.inr (by decide))
